import Mathlib

/-!
Verification of the retry / backoff / request-execution core of a Go
JSON-RPC client SDK.

The development shallowly embeds the Go source:

* Go errors become the inductive `GoError`; `*url.Error` and
  `x509.UnknownAuthorityError` get dedicated constructors so that the type
  assertions in `retryPolicy` can be translated faithfully, and
  `GoError.message` reproduces each error's `Error()` string.
* `*http.Response` becomes `Option Response` (`none` is Go's `nil`).
* Functions that can dereference a nil pointer return `Option` results,
  `none` marking the panic.
* `time.Duration` (an int64 of nanoseconds) and Go `int` become `Int`;
  Go `uint` conversion is modelled with wraparound modulo 2^64.
-/

set_option maxRecDepth 4000

/-- Go `error` values, as used by the retry core.  `urlError op url cause`
embeds `*url.Error`, `x509UnknownAuthority` embeds
`x509.UnknownAuthorityError{}`, and `mk msg` embeds every other error
(`errors.New` / `fmt.Errorf` values, `context` errors, ...). -/
inductive GoError where
  | urlError (op : String) (url : String) (cause : GoError)
  | x509UnknownAuthority
  | mk (msg : String)
deriving DecidableEq, Repr

/-- The string returned by the Go `Error()` method: `*url.Error` formats as
`op + " \x22" + url + "\x22: " + cause.Error()`, and
`x509.UnknownAuthorityError` as the fixed certificate message. -/
def GoError.message : GoError → String
  | .urlError op url cause => op ++ " \x22" ++ url ++ "\x22: " ++ cause.message
  | .x509UnknownAuthority => "x509: certificate signed by unknown authority"
  | .mk msg => msg

/-- `*http.Response`, restricted to the fields the retry core reads:
`Status` (the status line text), `StatusCode` (a Go `int`), and the header
map (read by no function under verification, but part of the data model). -/
structure Response where
  status : String
  statusCode : Int
  header : List (String × String) := []
deriving DecidableEq, Repr

/-- Drop `p` from the front of `l`, or `none` when `p` is not a prefix. -/
def chopLead : List Char → List Char → Option (List Char)
  | l, [] => some l
  | [], _ :: _ => none
  | c :: l, p :: ps => if c = p then chopLead l ps else none

/-- Does `needle` occur as a contiguous run anywhere in the list?  Used for
the unanchored regex `unsupported protocol scheme`. -/
def containsRun (needle : List Char) : List Char → Bool
  | [] => (chopLead [] needle).isSome
  | c :: l => (chopLead (c :: l) needle).isSome || containsRun needle l

/-- The regex `stopped after \d+ redirects\z` of `retryPolicy`: the string
must end with `stopped after `, one or more digits, then ` redirects`. -/
def stoppedAfterRedirects (s : String) : Bool :=
  match chopLead s.data.reverse " redirects".data.reverse with
  | none => false
  | some rest =>
      let digits := rest.takeWhile Char.isDigit
      !digits.isEmpty &&
        (chopLead (rest.dropWhile Char.isDigit) "stopped after ".data.reverse).isSome

/-- The regex `unsupported protocol scheme`, matched anywhere. -/
def unsupportedScheme (s : String) : Bool :=
  containsRun "unsupported protocol scheme".data s.data

/-- `retryPolicy(resp, err)` from the source.  When a transport error is
present, `*url.Error` values carrying a redirect-loop message, an
`unsupported protocol scheme` message, or an `x509.UnknownAuthorityError`
cause are fatal; every other error is retryable and returned as-is.  With
no error, the response is classified by status code; a nil response is then
dereferenced, so the result is `none` (panic) for `(none, none)`. -/
def retryPolicy (resp : Option Response) (err : Option GoError) :
    Option (Bool × Option GoError) :=
  match err with
  | some e =>
      match e with
      | .urlError op url cause =>
          let v := GoError.urlError op url cause
          if stoppedAfterRedirects v.message then some (false, some v)
          else if unsupportedScheme v.message then some (false, some v)
          else if cause = .x509UnknownAuthority then some (false, some v)
          else some (true, some v)
      | e => some (true, some e)
  | none =>
      match resp with
      | none => none
      | some r =>
          if r.statusCode = 0 ∨ (500 ≤ r.statusCode ∧ r.statusCode ≠ 501) then
            some (true, some (.mk ("unexpected HTTP status: " ++ r.status)))
          else if r.statusCode < 200 ∨ 300 ≤ r.statusCode then
            some (false, some (.mk ("unexpected HTTP status: " ++ r.status)))
          else
            some (false, none)

/-- `NopRequestRetryer.CheckRetry`: substitute the context error for a nil
transport error, feed the result through `retryPolicy`, and never retry.
`ctxErr` is the value of `ctx.Err()` (`none` when the context is live). -/
def NopRequestRetryer.CheckRetry (ctxErr : Option GoError)
    (resp : Option Response) (_attemptNum : Int) (err : Option GoError) :
    Option (Bool × Option GoError) :=
  let err := if err = none ∧ ctxErr ≠ none then ctxErr else err
  (retryPolicy resp err).map (fun p => (false, p.2))

/-- `NopRequestRetryer.Backoff` always returns a zero delay. -/
def NopRequestRetryer.Backoff (_attemptNum : Int) (_resp : Option Response) :
    Int := 0

/-- `ConstantRequestRetryer`: a fixed delay (`time.Duration`, int64
nanoseconds, here `Int`) and a maximum attempt count (Go `uint`). -/
structure ConstantRequestRetryer where
  RetryDelay : Int
  MaxRetryAttempts : Nat
deriving DecidableEq, Repr

/-- Go's `uint(n)` conversion of an `int`: two's-complement wraparound
modulo 2^64. -/
def goUint (n : Int) : Nat := (n % (2 ^ 64 : Nat)).toNat

/-- `ConstantRequestRetryer.Backoff` returns the configured delay,
ignoring the attempt number and the response. -/
def ConstantRequestRetryer.Backoff (r : ConstantRequestRetryer)
    (_attemptNum : Int) (_resp : Option Response) : Int := r.RetryDelay

/-- `ConstantRequestRetryer.CheckRetry`: an already-cancelled context wins;
otherwise the outcome is classified by `retryPolicy`, and once
`uint(attemptNum)` reaches the maximum the retry flag is forced to false
while the classified error is kept. -/
def ConstantRequestRetryer.CheckRetry (r : ConstantRequestRetryer)
    (ctxErr : Option GoError) (resp : Option Response) (attemptNum : Int)
    (err : Option GoError) : Option (Bool × Option GoError) :=
  match ctxErr with
  | some ce => some (false, some ce)
  | none =>
      (retryPolicy resp err).map (fun p =>
        if r.MaxRetryAttempts ≤ goUint attemptNum then (false, p.2) else p)

example :
    retryPolicy (some { status := "Internal Server Error", statusCode := 500 }) none
      = some (true, some (.mk "unexpected HTTP status: Internal Server Error")) := by
  decide

example :
    retryPolicy (some { status := "Bad Request", statusCode := 400 }) none
      = some (false, some (.mk "unexpected HTTP status: Bad Request")) := by
  decide

example :
    retryPolicy (some { status := "OK", statusCode := 200 }) none
      = some (false, none) := by
  decide

example :
    retryPolicy none (some (.urlError "GET" "https://example.net"
        (.mk "stopped after 42 redirects")))
      = some (false, some (.urlError "GET" "https://example.net"
        (.mk "stopped after 42 redirects"))) := by
  decide

example :
    retryPolicy none (some (.urlError "GET" "https://example.net"
        .x509UnknownAuthority))
      = some (false, some (.urlError "GET" "https://example.net"
        .x509UnknownAuthority)) := by
  decide

example :
    retryPolicy none (some (.mk "stopped after 42 redirects"))
      = some (true, some (.mk "stopped after 42 redirects")) := by
  decide

/-!  The `sendRequest` attempt loop.  The HTTP transport, the context and
the JSON decoder are the loop's environment; each is a function of the
(1-based) attempt number. -/

/-- The environment one `sendRequest` execution runs against:
`doResult n` is what `c.HTTPClient.Do(req)` returns on attempt `n`;
`ctxErrAt n` is `req.Context().Err()` when `CheckRetry` runs after attempt
`n`; `ctxFires n = some e` means the context's done channel wins the
race against the backoff sleep after attempt `n`, with `Err()` = `e`. -/
structure SendEnv where
  doResult : Nat → Option Response × Option GoError
  ctxErrAt : Nat → Option GoError
  ctxFires : Nat → Option GoError

/-- What `json.NewDecoder(resp.Body).Decode(rpcResponse)` produces on the
success path: a decode error, or an envelope whose `Error` field is
`none` or `some (code, message)`. -/
inductive DecodeResult where
  | decodeErr (e : GoError)
  | envelope (rpcErr : Option (Int × String))
deriving DecidableEq, Repr

/-- How one execution of the `for` loop in `sendRequest` ends:
`broke` records the loop variables at the `break` (final attempt number,
`resp`, `doErr`, `checkErr`, `shouldRetry`), and `ctxDuringWait` is the
early `return req.Context().Err()` from the backoff `select`. -/
inductive LoopExit where
  | broke (attempt : Nat) (resp : Option Response)
      (doErr checkErr : Option GoError) (shouldRetry : Bool)
  | ctxDuringWait (attempt : Nat) (ctxErr : GoError)
deriving DecidableEq, Repr

/-- The `for` loop of `sendRequest`, fuel-indexed (the Go loop need not
terminate when the retryer always says retry; `none` is both
non-termination within the fuel and a panic inside the body).  `attempt`
is the already-incremented attempt counter for this iteration.  On a
retry decision with `doErr == nil`, `drainBody(resp.Body)` dereferences
the response, so a nil response panics there. -/
def sendRequestLoop
    (checkRetry : Option GoError → Option Response → Int → Option GoError →
      Option (Bool × Option GoError))
    (backoff : Int → Option Response → Int) (env : SendEnv) :
    Nat → Nat → Option LoopExit
  | 0, _ => none
  | fuel + 1, attempt =>
      let out := env.doResult attempt
      match checkRetry (env.ctxErrAt attempt) out.1 (attempt : Int) out.2 with
      | none => none
      | some (shouldRetry, checkErr) =>
          if shouldRetry = false then
            some (.broke attempt out.1 out.2 checkErr shouldRetry)
          else if out.2 = none ∧ out.1 = none then
            none
          else
            let _wait := backoff (attempt : Int) out.1
            match env.ctxFires attempt with
            | some ce => some (.ctxDuringWait attempt ce)
            | none => sendRequestLoop checkRetry backoff env fuel (attempt + 1)

/-- The code after the loop in `sendRequest`, translated branch by branch.
On the success test `doErr == nil && checkErr == nil && !shouldRetry` the
body of the (nil-dereferenced, hence `Option`) response is decoded by
`decode`; otherwise the classification error is preferred over the
transport error, and with neither a `giving up` error is synthesized from
the request's method, URL and the attempt count. -/
def finishRequest (decode : Nat → DecodeResult) (method url : String) :
    LoopExit → Option (Option GoError)
  | .ctxDuringWait _ e => some (some e)
  | .broke attempt resp doErr checkErr shouldRetry =>
      if doErr = none ∧ checkErr = none ∧ shouldRetry = false then
        match resp with
        | none => none
        | some _ =>
            match decode attempt with
            | .decodeErr e => some (some e)
            | .envelope (some pe) =>
                some (some (.mk (pe.2 ++ " (" ++ toString pe.1 ++ ")")))
            | .envelope none => some none
      else
        let err := match checkErr with
          | some e => some e
          | none => doErr
        match err with
        | none =>
            some (some (.mk (method ++ " " ++ url ++ " giving up after "
              ++ toString attempt ++ " attempt(s)")))
        | some e => some (some e)

/-- `sendRequest`: run the loop from attempt 1, then finalize.  The outer
`Option` is `none` when the loop panics or exceeds the fuel; the inner
`Option GoError` is the Go return value (`none` = `nil`). -/
def sendRequest
    (checkRetry : Option GoError → Option Response → Int → Option GoError →
      Option (Bool × Option GoError))
    (backoff : Int → Option Response → Int) (env : SendEnv) (fuel : Nat)
    (decode : Nat → DecodeResult) (method url : String) :
    Option (Option GoError) :=
  (sendRequestLoop checkRetry backoff env fuel 1).bind
    (finishRequest decode method url)

/-!  Request signing (`signRequestBody`).  Bytes are `Nat`s below 256; the
SHA-256, HMAC, hex and base64 primitives are written out so every step is
executable and checkable against the repository's own test vector. -/

/-- UTF-8 encoding of a character, as Go's `[]byte(string)` produces. -/
def utf8Bytes (c : Char) : List Nat :=
  let n := c.toNat
  if n < 128 then [n]
  else if n < 2048 then [192 ||| (n >>> 6), 128 ||| (n &&& 63)]
  else if n < 65536 then
    [224 ||| (n >>> 12), 128 ||| ((n >>> 6) &&& 63), 128 ||| (n &&& 63)]
  else
    [240 ||| (n >>> 18), 128 ||| ((n >>> 12) &&& 63),
      128 ||| ((n >>> 6) &&& 63), 128 ||| (n &&& 63)]

/-- The bytes of a Go string (UTF-8). -/
def strBytes (s : String) : List Nat := (s.data.map utf8Bytes).flatten

/-- Emit base64 characters for successive 3-byte groups, with the final
partial group padded with `=` only when `pad` is set. -/
def b64Groups (alphabet : List Char) (pad : Bool) : List Nat → List Char
  | [] => []
  | [a] =>
      alphabet.getD (a >>> 2) '?' :: alphabet.getD ((a &&& 3) <<< 4) '?' ::
        (if pad then ['=', '='] else [])
  | [a, b] =>
      alphabet.getD (a >>> 2) '?' ::
        alphabet.getD (((a &&& 3) <<< 4) ||| (b >>> 4)) '?' ::
        alphabet.getD ((b &&& 15) <<< 2) '?' :: (if pad then ['='] else [])
  | a :: b :: c :: rest =>
      alphabet.getD (a >>> 2) '?' ::
        alphabet.getD (((a &&& 3) <<< 4) ||| (b >>> 4)) '?' ::
        alphabet.getD (((b &&& 15) <<< 2) ||| (c >>> 6)) '?' ::
        alphabet.getD (c &&& 63) '?' :: b64Groups alphabet pad rest

/-- `base64.StdEncoding.EncodeToString`: standard alphabet, padded. -/
def base64StdEncode (bytes : List Nat) : String :=
  String.mk (b64Groups
    "ABCDEFGHIJKLMNOPQRSTUVWXYZabcdefghijklmnopqrstuvwxyz0123456789+/".data
    true bytes)

/-- `base64.RawURLEncoding.EncodeToString`: URL alphabet, unpadded. -/
def base64RawURLEncode (bytes : List Nat) : String :=
  String.mk (b64Groups
    "ABCDEFGHIJKLMNOPQRSTUVWXYZabcdefghijklmnopqrstuvwxyz0123456789-_".data
    false bytes)

/-- `hex.EncodeToString`: lowercase hexadecimal. -/
def hexEncode (bytes : List Nat) : String :=
  String.mk ((bytes.map (fun b =>
    ["0123456789abcdef".data.getD (b >>> 4) '?',
      "0123456789abcdef".data.getD (b &&& 15) '?'])).flatten)

/-- Truncation to a 32-bit word. -/
def m32 (x : Nat) : Nat := x % 4294967296

/-- 32-bit right rotation. -/
def rotr32 (n x : Nat) : Nat := m32 ((x >>> n) ||| (x <<< (32 - n)))

/-- The 64 SHA-256 round constants. -/
def sha256K : List Nat :=
  [1116352408, 1899447441, 3049323471, 3921009573, 961987163,
   1508970993, 2453635748, 2870763221, 3624381080, 310598401,
   607225278, 1426881987, 1925078388, 2162078206, 2614888103,
   3248222580, 3835390401, 4022224774, 264347078, 604807628,
   770255983, 1249150122, 1555081692, 1996064986, 2554220882,
   2821834349, 2952996808, 3210313671, 3336571891, 3584528711,
   113926993, 338241895, 666307205, 773529912, 1294757372,
   1396182291, 1695183700, 1986661051, 2177026350, 2456956037,
   2730485921, 2820302411, 3259730800, 3345764771, 3516065817,
   3600352804, 4094571909, 275423344, 430227734, 506948616,
   659060556, 883997877, 958139571, 1322822218, 1537002063,
   1747873779, 1955562222, 2024104815, 2227730452, 2361852424,
   2428436474, 2756734187, 3204031479, 3329325298]

/-- The SHA-256 initial hash value. -/
def sha256H0 : List Nat :=
  [1779033703, 3144134277, 1013904242, 2773480762,
   1359893119, 2600822924, 528734635, 1541459225]

/-- Extend a 16-word block to the 64-word message schedule. -/
def sha256Schedule (block : List Nat) : Array Nat :=
  (List.range 48).foldl (fun w i =>
    let t := m32 ((rotr32 17 (w.getD (i + 14) 0) ^^^ rotr32 19 (w.getD (i + 14) 0)
        ^^^ (w.getD (i + 14) 0 >>> 10))
      + w.getD (i + 9) 0
      + (rotr32 7 (w.getD (i + 1) 0) ^^^ rotr32 18 (w.getD (i + 1) 0)
        ^^^ (w.getD (i + 1) 0 >>> 3))
      + w.getD i 0)
    w.push t) block.toArray

/-- One SHA-256 round on the state `[a,b,c,d,e,f,g,h]`. -/
def sha256Round (k w : Nat) : List Nat → List Nat
  | [a, b, c, d, e, f, g, h] =>
      let t1 := m32 (h + (rotr32 6 e ^^^ rotr32 11 e ^^^ rotr32 25 e)
        + ((e &&& f) ^^^ ((e ^^^ 4294967295) &&& g)) + k + w)
      let t2 := m32 ((rotr32 2 a ^^^ rotr32 13 a ^^^ rotr32 22 a)
        + ((a &&& b) ^^^ (a &&& c) ^^^ (b &&& c)))
      [m32 (t1 + t2), a, b, c, m32 (d + t1), e, f, g]
  | s => s

/-- Compress one 16-word block into the running hash. -/
def sha256Compress (h : List Nat) (block : List Nat) : List Nat :=
  let w := sha256Schedule block
  let s := (List.zip sha256K w.toList).foldl
    (fun s kw => sha256Round kw.1 kw.2 s) h
  List.zipWith (fun x y => m32 (x + y)) h s

/-- SHA-256 padding: a `0x80` byte, zeros to 56 mod 64, then the bit
length as 8 big-endian bytes. -/
def sha256Pad (msg : List Nat) : List Nat :=
  msg ++ [128] ++ List.replicate ((119 - msg.length % 64) % 64) 0
    ++ (List.range 8).map (fun i => ((msg.length * 8) >>> ((7 - i) * 8)) &&& 255)

/-- Chunking worker: `cap` free slots remain in the current chunk, whose
elements are held reversed in `acc`. -/
def chunkAux (cap : Nat) (acc : List Nat) : List Nat → List (List Nat)
  | [] => if acc.isEmpty then [] else [acc.reverse]
  | x :: xs =>
      match cap with
      | 0 => acc.reverse :: chunkAux 63 [x] xs
      | n + 1 => chunkAux n (x :: acc) xs

/-- Split a byte list into 64-byte chunks. -/
def chunk64 (l : List Nat) : List (List Nat) := chunkAux 64 [] l

/-- Big-endian bytes to 32-bit words. -/
def bytesToWords : List Nat → List Nat
  | a :: b :: c :: d :: rest =>
      ((((a <<< 8) ||| b) <<< 8 ||| c) <<< 8 ||| d) :: bytesToWords rest
  | _ => []

/-- SHA-256 of a byte list, as a 32-byte list. -/
def sha256 (msg : List Nat) : List Nat :=
  let h := (chunk64 (sha256Pad msg)).foldl
    (fun h b => sha256Compress h (bytesToWords b)) sha256H0
  (h.map (fun w =>
    [(w >>> 24) &&& 255, (w >>> 16) &&& 255, (w >>> 8) &&& 255, w &&& 255])).flatten

/-- HMAC-SHA256 (`hmac.New(sha256.New, key)` then `Write`/`Sum`). -/
def hmacSha256 (key msg : List Nat) : List Nat :=
  let k0 := if 64 < key.length then sha256 key else key
  let k := k0 ++ List.replicate (64 - k0.length) 0
  sha256 ((k.map (fun b => b ^^^ 92)) ++ sha256 ((k.map (fun b => b ^^^ 54)) ++ msg))

/-- The result of `hash.Write` in `signRequestBody`.  Per the
`crypto/sha256` (and `hash.Hash`) contract, `Write` never returns an
error, so the error component is always `none`. -/
def hashWriteErr (_data : List Nat) : Option GoError := none

/-- `signRequestBody(publicKey, secret, body)`: raw-URL-base64 the body,
HMAC-SHA256 it under `secret`, hex the MAC, join with the public key as
`publicKey:hex`, and standard-base64 the result.  Returns the Go pair
`(string, error)`. -/
def signRequestBody (publicKey secret : String) (body : List Nat) :
    String × Option GoError :=
  let base64body := base64RawURLEncode body
  match hashWriteErr (strBytes base64body) with
  | some e => ("", some e)
  | none =>
      let bodyHash := hexEncode (hmacSha256 (strBytes secret) (strBytes base64body))
      let signature := publicKey ++ ":" ++ bodyHash
      (base64StdEncode (strBytes signature), none)

/-  Check of the whole signing stack against the repository's own test
vector (`TestHmac256Signer`): signing `[123, 125]` (the bytes of a pair of
braces, i.e. an empty JSON object) with public key `public key` and
secret `secret`. -/
example :
    signRequestBody "public key" "secret" [123, 125]
      = ("cHVibGljIGtleToyYTcyOTc1ZTIxZDgzZmRjZGY3Y2U1ZDY2ZGMzOTBlM2MzZWEwMGI3MjJlOTAzNmI5YTlhNjFkZDljMjIyNzk4",
          none) := by
  decide

/-!  Shared helper lemmas. -/

/-- With a transport error present, `retryPolicy` always hands back that
same error as its error component (every branch returns the input error). -/
theorem retryPolicy_some_err (resp : Option Response) (e : GoError) :
    ∃ b, retryPolicy resp (some e) = some (b, some e) := by
  cases e with
  | urlError op url cause =>
      simp only [retryPolicy]
      split_ifs <;> exact ⟨_, rfl⟩
  | x509UnknownAuthority => exact ⟨true, rfl⟩
  | mk msg => exact ⟨true, rfl⟩

/-!  Claim theorems. -/

/-- C1 counterexample: a response with status code 600 is outside
`[200,299]` and outside the claim's retry band `{0} ∪ [500,599] ∖ {501}`,
so the claim prescribes `(false, error)`; `retryPolicy` classifies it as
retryable, because the source tests `StatusCode >= 500` with no upper
bound. -/
theorem C1_status_counterexample :
    (¬ (200 ≤ (600 : Int) ∧ (600 : Int) ≤ 299)) ∧
    (¬ ((600 : Int) = 0 ∨ (500 ≤ (600 : Int) ∧ (600 : Int) ≤ 599 ∧ (600 : Int) ≠ 501))) ∧
    retryPolicy (some { status := "600 Unknown Code", statusCode := 600 }) none
      = some (true, some (.mk "unexpected HTTP status: 600 Unknown Code")) := by
  refine ⟨by omega, by omega, by decide⟩

/-- C1 (amended): for `retryPolicy(resp, nil)` with a non-nil response,
a status code of 0 or at least 500 (except 501) yields
`(true, "unexpected HTTP status: <Status>")`; every other status code
outside `[200,299]` yields `(false, "unexpected HTTP status: <Status>")`;
a status code in `[200,299]` yields `(false, nil)`. -/
theorem C1_status_bands (r : Response) :
    (r.statusCode = 0 ∨ (500 ≤ r.statusCode ∧ r.statusCode ≠ 501) →
      retryPolicy (some r) none
        = some (true, some (.mk ("unexpected HTTP status: " ++ r.status)))) ∧
    (¬ (r.statusCode = 0 ∨ (500 ≤ r.statusCode ∧ r.statusCode ≠ 501)) →
      r.statusCode < 200 ∨ 300 ≤ r.statusCode →
      retryPolicy (some r) none
        = some (false, some (.mk ("unexpected HTTP status: " ++ r.status)))) ∧
    (200 ≤ r.statusCode ∧ r.statusCode < 300 →
      retryPolicy (some r) none = some (false, none)) := by
  refine ⟨fun h => ?_, fun h1 h2 => ?_, fun h => ?_⟩
  · simp only [retryPolicy]
    rw [if_pos h]
  · simp only [retryPolicy]
    rw [if_neg h1, if_pos h2]
  · have h1 : ¬ (r.statusCode = 0 ∨ (500 ≤ r.statusCode ∧ r.statusCode ≠ 501)) := by omega
    have h2 : ¬ (r.statusCode < 200 ∨ 300 ≤ r.statusCode) := by omega
    simp only [retryPolicy]
    rw [if_neg h1, if_neg h2]

/-- C1 witness: the three bands of `C1_status_bands` evaluated at the
concrete statuses 503, 400 and 200. -/
theorem C1_status_bands_witness :
    retryPolicy (some ⟨"Service Unavailable", 503, []⟩) none
      = some (true, some (.mk "unexpected HTTP status: Service Unavailable")) ∧
    retryPolicy (some ⟨"Bad Request", 400, []⟩) none
      = some (false, some (.mk "unexpected HTTP status: Bad Request")) ∧
    retryPolicy (some ⟨"OK", 200, []⟩) none = some (false, none) :=
  ⟨(C1_status_bands _).1 (by decide),
    (C1_status_bands _).2.1 (by decide) (by decide),
    (C1_status_bands _).2.2 (by decide)⟩

/-- C2: with a non-nil transport error, a `url.Error` whose message ends
in `stopped after <digits> redirects`, or contains
`unsupported protocol scheme`, or whose cause is an
`x509.UnknownAuthorityError`, gives `(false, that same error)`; every
other transport error gives `(true, that same error)`. -/
theorem C2_transport_classification (resp : Option Response) (e : GoError) :
    (∀ op url cause, e = .urlError op url cause →
      (stoppedAfterRedirects e.message = true ∨
        unsupportedScheme e.message = true ∨ cause = .x509UnknownAuthority) →
      retryPolicy resp (some e) = some (false, some e)) ∧
    ((∀ op url cause, e = .urlError op url cause →
      stoppedAfterRedirects e.message = false ∧
        unsupportedScheme e.message = false ∧ cause ≠ .x509UnknownAuthority) →
      retryPolicy resp (some e) = some (true, some e)) := by
  constructor
  · intro op url cause heq hcond
    subst heq
    rcases hcond with h | h | h <;>
      · simp only [retryPolicy]
        split_ifs <;> simp_all
  · intro hnone
    cases e with
    | urlError op url cause =>
        obtain ⟨h1, h2, h3⟩ := hnone op url cause rfl
        simp only [retryPolicy]
        rw [if_neg (by simp [h1]), if_neg (by simp [h2]), if_neg h3]
    | x509UnknownAuthority => rfl
    | mk msg => rfl

/-- C2 witness: a redirect-loop `url.Error` is fatal and returned
unchanged; a generic error is retryable and returned unchanged. -/
theorem C2_transport_classification_witness :
    retryPolicy none (some (.urlError "GET" "https://example.net"
        (.mk "stopped after 42 redirects")))
      = some (false, some (.urlError "GET" "https://example.net"
        (.mk "stopped after 42 redirects"))) ∧
    retryPolicy none (some (.mk "boom")) = some (true, some (.mk "boom")) :=
  ⟨(C2_transport_classification none _).1 "GET" "https://example.net" _ rfl
      (Or.inl (by decide)),
    (C2_transport_classification none _).2
      (fun _ _ _ h => GoError.noConfusion h)⟩

/-- C3: with a live context, once the attempt number (a valid non-negative
Go `int`) reaches `MaxRetryAttempts`, `ConstantRequestRetryer.CheckRetry`
never retries and returns exactly the error classified by `retryPolicy`
for the outcome. -/
theorem C3_attempt_limit (r : ConstantRequestRetryer) (resp : Option Response)
    (err : Option GoError) (n : Int) (h0 : 0 ≤ n) (h1 : n < 2 ^ 63)
    (h2 : (r.MaxRetryAttempts : Int) ≤ n) :
    r.CheckRetry none resp n err
      = (retryPolicy resp err).map (fun p => (false, p.2)) := by
  have hu : r.MaxRetryAttempts ≤ goUint n := by unfold goUint; omega
  simp [ConstantRequestRetryer.CheckRetry, hu]

/-- C3 witness: a retryer capped at 3 attempts, asked about a 500 response
on attempt 3, refuses to retry but keeps the classified error. -/
theorem C3_attempt_limit_witness :
    ConstantRequestRetryer.CheckRetry ⟨2, 3⟩ none
        (some ⟨"Internal Server Error", 500, []⟩) 3 none
      = some (false, some (.mk "unexpected HTTP status: Internal Server Error")) :=
  C3_attempt_limit ⟨2, 3⟩ (some ⟨"Internal Server Error", 500, []⟩) none 3
    (by decide) (by decide) (by decide)

/-- C4 counterexample: with the context already cancelled but a transport
error present, `NopRequestRetryer.CheckRetry` returns the transport error,
not the cancellation error, because the substitution
`if err == nil && ctx.Err() != nil` only fires on a nil transport error. -/
theorem C4_cancellation_counterexample :
    NopRequestRetryer.CheckRetry (some (.mk "context canceled"))
        (some ⟨"Internal Server Error", 500, []⟩) 1 (some (.mk "boom"))
      = some (false, some (.mk "boom")) ∧
    some (false, some (GoError.mk "boom"))
      ≠ some (false, some (GoError.mk "context canceled")) := by
  exact ⟨by decide, by decide⟩

/-- C4 (amended): an already-signalled context makes
`ConstantRequestRetryer.CheckRetry` return `(false, cancellation error)`
for every outcome and attempt number; `NopRequestRetryer.CheckRetry` does
the same only when the transport error is nil, and with a transport error
present it ignores the cancellation signal and returns `(false, ...)` with
the error classified from the transport error. -/
theorem C4_cancellation_precedence :
    (∀ (r : ConstantRequestRetryer) (ce : GoError) (resp : Option Response)
        (n : Int) (err : Option GoError),
      r.CheckRetry (some ce) resp n err = some (false, some ce)) ∧
    (∀ (ce : GoError) (resp : Option Response) (n : Int),
      NopRequestRetryer.CheckRetry (some ce) resp n none
        = some (false, some ce)) ∧
    (∀ (ce te : GoError) (resp : Option Response) (n : Int),
      NopRequestRetryer.CheckRetry (some ce) resp n (some te)
        = (retryPolicy resp (some te)).map (fun p => (false, p.2))) := by
  refine ⟨fun r ce resp n err => rfl, fun ce resp n => ?_, fun ce te resp n => rfl⟩
  obtain ⟨b, hb⟩ := retryPolicy_some_err resp ce
  simp [NopRequestRetryer.CheckRetry, hb]

/-- Modelled from the spec: the `Retry-After` response header gives "an
explicit server-mandated wait, in seconds", "parseable as seconds".  No
implementation exists in the source (no backoff function in the repository
reads the header), so the parse is a plain non-negative decimal read. -/
def parseRetryAfterSeconds (s : String) : Option Nat :=
  if !s.data.isEmpty ∧ s.data.all Char.isDigit then
    some (s.data.foldl (fun n c => n * 10 + (c.toNat - 48)) 0)
  else none

/-- Header lookup on the embedded response (Go `resp.Header.Get(key)`,
first match). -/
def headerGet (r : Response) (key : String) : Option String :=
  (r.header.find? (fun p => p.1 = key)).map (fun p => p.2)

/-- A 429 response carrying `Retry-After: 7`. -/
def respRetryAfter : Response :=
  ⟨"Too Many Requests", 429, [("Retry-After", "7")]⟩

/-- C7 counterexample: for a 429 response with a parseable
`Retry-After: 7` header, `ConstantRequestRetryer.Backoff` still returns
the configured delay (2 ns here), not the header's 7 seconds — the source
never reads the header. -/
theorem C7_retry_after_counterexample :
    (respRetryAfter.statusCode = 429 ∧
      headerGet respRetryAfter "Retry-After" = some "7" ∧
      parseRetryAfterSeconds "7" = some 7) ∧
    ConstantRequestRetryer.Backoff ⟨2, 3⟩ 1 (some respRetryAfter)
      ≠ 7 * 1000000000 := by
  exact ⟨by decide, by decide⟩

/-- C7 (amended): no backoff implementation pre-empts its delay with the
`Retry-After` header; even for a 429 response carrying a parseable
`Retry-After` value, `ConstantRequestRetryer.Backoff` returns the
configured `RetryDelay` and `NopRequestRetryer.Backoff` returns zero. -/
theorem C7_retry_after_ignored (r : ConstantRequestRetryer) (k : Int)
    (resp : Response) (s : String) (n : Nat) (_h429 : resp.statusCode = 429)
    (_hh : headerGet resp "Retry-After" = some s)
    (_hp : parseRetryAfterSeconds s = some n) :
    r.Backoff k (some resp) = r.RetryDelay ∧
      NopRequestRetryer.Backoff k (some resp) = 0 :=
  ⟨rfl, rfl⟩

/-- C7 witness: the amended statement at the concrete 429 response with
`Retry-After: 7` and a 2 ns configured delay. -/
theorem C7_retry_after_ignored_witness :
    ConstantRequestRetryer.Backoff ⟨2, 3⟩ 1 (some respRetryAfter) = 2 ∧
      NopRequestRetryer.Backoff 1 (some respRetryAfter) = 0 :=
  C7_retry_after_ignored ⟨2, 3⟩ 1 respRetryAfter "7" 7 (by decide) (by decide)
    (by decide)

/-- C8: `ConstantRequestRetryer.Backoff` equals the configured
`RetryDelay` and `NopRequestRetryer.Backoff` equals zero, for every
attempt number and every response (present or nil). -/
theorem C8_backoff_constant (r : ConstantRequestRetryer) (k : Int)
    (resp : Option Response) :
    r.Backoff k resp = r.RetryDelay ∧ NopRequestRetryer.Backoff k resp = 0 :=
  ⟨rfl, rfl⟩

/-- C9: `retryPolicy` panics on the outcome `(nil, nil)` (modelled as
`none`), and the panic surfaces through `NopRequestRetryer.CheckRetry`
with a live context; under the precondition that the response or the
transport error is present, `retryPolicy` is total. -/
theorem C9_nil_totality :
    retryPolicy none none = none ∧
    (∀ n : Int, NopRequestRetryer.CheckRetry none none n none = none) ∧
    (∀ (resp : Option Response) (err : Option GoError),
      resp ≠ none ∨ err ≠ none → (retryPolicy resp err).isSome = true) := by
  refine ⟨rfl, fun n => rfl, fun resp err h => ?_⟩
  cases err with
  | some e => obtain ⟨b, hb⟩ := retryPolicy_some_err resp e; simp [hb]
  | none =>
      cases resp with
      | none => simp at h
      | some r =>
          simp only [retryPolicy]
          split_ifs <;> rfl

/-- C9 witness: the totality part of `C9_nil_totality` evaluated at a
present 200 response and a nil transport error. -/
theorem C9_nil_totality_witness :
    (retryPolicy (some ⟨"OK", 200, []⟩) none).isSome = true :=
  C9_nil_totality.2.2 (some ⟨"OK", 200, []⟩) none (by decide)

/-- C10: `signRequestBody` never returns an error and its signature is
exactly the standard-base64 of `publicKey ++ ":" ++ hex(HMAC-SHA256(key =
secret, message = rawURL-base64(body)))`; being a pure function of its
three inputs, two runs on identical inputs give identical signatures. -/
theorem C10_sign_deterministic (publicKey secret : String) (body : List Nat) :
    (signRequestBody publicKey secret body).2 = none ∧
    (signRequestBody publicKey secret body).1
      = base64StdEncode (strBytes (publicKey ++ ":" ++
          hexEncode (hmacSha256 (strBytes secret)
            (strBytes (base64RawURLEncode body))))) ∧
    signRequestBody publicKey secret body
      = signRequestBody publicKey secret body :=
  ⟨rfl, rfl, rfl⟩

/-- C5: when the attempt loop exits on the success test (no transport
error, no classification error, no retry pending) with a present response,
`sendRequest` returns the decode error verbatim when decoding fails, the
error `<message> (<code>)` when the envelope carries an error object, and
nil otherwise. -/
theorem C5_success_path
    (checkRetry : Option GoError → Option Response → Int → Option GoError →
      Option (Bool × Option GoError))
    (backoff : Int → Option Response → Int) (env : SendEnv) (fuel : Nat)
    (decode : Nat → DecodeResult) (method url : String) (a : Nat) (r : Response)
    (hexit : sendRequestLoop checkRetry backoff env fuel 1
      = some (.broke a (some r) none none false)) :
    sendRequest checkRetry backoff env fuel decode method url
      = some (match decode a with
          | .decodeErr e => some e
          | .envelope (some pe) => some (.mk (pe.2 ++ " (" ++ toString pe.1 ++ ")"))
          | .envelope none => none) := by
  rcases hd : decode a with e | (_ | pe) <;>
    simp [sendRequest, hexit, finishRequest, hd]

/-- C6: whenever the loop breaks off the success test, `sendRequest`
returns a non-nil error — the classification error when present, else the
transport error, else the synthesized `giving up` error — and the only
terminal path returning nil is the success path with an error-free
envelope. -/
theorem C6_error_paths :
    (∀ (checkRetry : Option GoError → Option Response → Int → Option GoError →
        Option (Bool × Option GoError))
      (backoff : Int → Option Response → Int) (env : SendEnv) (fuel : Nat)
      (decode : Nat → DecodeResult) (method url : String) (a : Nat)
      (resp : Option Response) (doErr checkErr : Option GoError) (sr : Bool),
      sendRequestLoop checkRetry backoff env fuel 1
          = some (.broke a resp doErr checkErr sr) →
      ¬ (doErr = none ∧ checkErr = none ∧ sr = false) →
      sendRequest checkRetry backoff env fuel decode method url
        = some (some (match checkErr with
            | some e => e
            | none => match doErr with
              | some e => e
              | none => .mk (method ++ " " ++ url ++ " giving up after "
                  ++ toString a ++ " attempt(s)")))) ∧
    (∀ (checkRetry : Option GoError → Option Response → Int → Option GoError →
        Option (Bool × Option GoError))
      (backoff : Int → Option Response → Int) (env : SendEnv) (fuel : Nat)
      (decode : Nat → DecodeResult) (method url : String),
      sendRequest checkRetry backoff env fuel decode method url = some none →
      ∃ a r, sendRequestLoop checkRetry backoff env fuel 1
          = some (.broke a (some r) none none false) ∧
        decode a = .envelope none) := by
  constructor
  · intro checkRetry backoff env fuel decode method url a resp doErr checkErr sr
      hexit hfail
    simp only [sendRequest, hexit, Option.some_bind]
    simp only [finishRequest, if_neg hfail]
    cases checkErr <;> cases doErr <;> rfl
  · intro checkRetry backoff env fuel decode method url h
    unfold sendRequest at h
    cases hl : sendRequestLoop checkRetry backoff env fuel 1 with
    | none => rw [hl] at h; simp at h
    | some exit =>
        rw [hl] at h
        simp only [Option.some_bind] at h
        cases exit with
        | ctxDuringWait a e => simp [finishRequest] at h
        | broke a resp doErr checkErr sr =>
            by_cases hc : doErr = none ∧ checkErr = none ∧ sr = false
            · obtain ⟨h1, h2, h3⟩ := hc
              subst h1; subst h2; subst h3
              cases resp with
              | none => simp [finishRequest] at h
              | some r =>
                  cases hd : decode a with
                  | decodeErr e => simp [finishRequest, hd] at h
                  | envelope pe =>
                      cases pe with
                      | none => exact ⟨a, r, rfl, hd⟩
                      | some p => simp [finishRequest, hd] at h
            · simp only [finishRequest, if_neg hc] at h
              cases checkErr <;> cases doErr <;> simp at h

/-- A 200 response used by the concrete executions below. -/
def okResp : Response := ⟨"OK", 200, []⟩

/-- A 500 response used by the concrete executions below. -/
def errResp : Response := ⟨"Internal Server Error", 500, []⟩

/-- An environment whose transport always yields `okResp` with a live,
never-firing context. -/
def envOK : SendEnv := ⟨fun _ => (some okResp, none), fun _ => none, fun _ => none⟩

/-- An environment whose transport always yields `errResp` with a live,
never-firing context. -/
def env500 : SendEnv := ⟨fun _ => (some errResp, none), fun _ => none, fun _ => none⟩

/-- A decoder producing an envelope with error object `(1, "test error")`. -/
def decodeRPCErr : Nat → DecodeResult := fun _ => .envelope (some (1, "test error"))

/-- A decoder producing an error-free envelope. -/
def decodeClean : Nat → DecodeResult := fun _ => .envelope none

/-- C5 witness: a no-retry execution against a 200 response whose envelope
carries the error object `(1, "test error")` returns the error
`test error (1)`. -/
theorem C5_success_path_witness :
    sendRequestLoop NopRequestRetryer.CheckRetry NopRequestRetryer.Backoff envOK 3 1
      = some (.broke 1 (some okResp) none none false) ∧
    sendRequest NopRequestRetryer.CheckRetry NopRequestRetryer.Backoff envOK 3
        decodeRPCErr "POST" "https://api.client.ch/v3"
      = some (some (.mk "test error (1)")) :=
  ⟨by decide,
    C5_success_path NopRequestRetryer.CheckRetry NopRequestRetryer.Backoff envOK 3
      decodeRPCErr "POST" "https://api.client.ch/v3" 1 okResp (by decide)⟩

/-- C6 witness: a single-attempt constant retryer against a permanent 500
surfaces the classified error, and a nil return forces the success path. -/
theorem C6_error_paths_witness :
    sendRequestLoop (ConstantRequestRetryer.CheckRetry ⟨0, 1⟩)
        (ConstantRequestRetryer.Backoff ⟨0, 1⟩) env500 3 1
      = some (.broke 1 (some errResp) none
          (some (.mk "unexpected HTTP status: Internal Server Error")) false) ∧
    sendRequest (ConstantRequestRetryer.CheckRetry ⟨0, 1⟩)
        (ConstantRequestRetryer.Backoff ⟨0, 1⟩) env500 3 decodeClean
        "POST" "https://api.client.ch/v3"
      = some (some (.mk "unexpected HTTP status: Internal Server Error")) ∧
    (∃ a r, sendRequestLoop NopRequestRetryer.CheckRetry NopRequestRetryer.Backoff
          envOK 3 1
        = some (.broke a (some r) none none false) ∧
      decodeClean a = .envelope none) :=
  ⟨by decide,
    C6_error_paths.1 (ConstantRequestRetryer.CheckRetry ⟨0, 1⟩)
      (ConstantRequestRetryer.Backoff ⟨0, 1⟩) env500 3 decodeClean
      "POST" "https://api.client.ch/v3" 1 (some errResp) none
      (some (.mk "unexpected HTTP status: Internal Server Error")) false
      (by decide) (by decide),
    C6_error_paths.2 NopRequestRetryer.CheckRetry NopRequestRetryer.Backoff envOK 3
      decodeClean "POST" "https://api.client.ch/v3" (by decide)⟩
